import Mathlib

/-!
Verification of `src/app.py` (a Slack slash-command webhook bridging Jira and
a text-generation provider).  Shallow embedding: the pure computations of the
source are translated into executable Lean definitions; external collaborators
(the Jira REST API, the generation provider, the Slack response_url endpoint)
are modelled as oracle inputs; every outbound call the handlers make is logged
in the result value so that "zero calls" properties are statable.
-/

/-! ## Python string primitives used by the source

The source uses `str.strip`, `str.lower`, `str.upper`, `str.startswith`,
`str.split(" ", 1)`, `list.index`, and the `in` substring test.  Each is
modelled here at the character-list level (ASCII-faithful).
-/

/-- Model of Python `str.lower` (ASCII). -/
def pyLower (s : String) : String := String.mk (s.data.map Char.toLower)

/-- Model of Python `str.upper` (ASCII). -/
def pyUpper (s : String) : String := String.mk (s.data.map Char.toUpper)

/-- Model of Python `str.startswith`. -/
def pyStartsWith (s p : String) : Bool := p.data.isPrefixOf s.data

/-- Characters stripped by Python `str.strip()` with no argument. -/
def pyStripAux (l : List Char) : List Char :=
  ((l.dropWhile Char.isWhitespace).reverse.dropWhile Char.isWhitespace).reverse

/-- Model of Python `str.strip()`. -/
def pyStrip (s : String) : String := String.mk (pyStripAux s.data)

/-- Split a character list at the first space, as Python `split(" ", 1)` does. -/
def splitFirstSpace : List Char → Option (List Char × List Char)
  | [] => none
  | c :: cs =>
    if c = ' ' then some ([], cs)
    else (splitFirstSpace cs).map (fun p => (c :: p.1, p.2))

/-- Model of Python `s.split(" ", 1)`: the part before the first space and,
when a space exists, the part after it. -/
def pySplit1 (s : String) : String × Option String :=
  match splitFirstSpace s.data with
  | none => (s, none)
  | some (a, b) => (String.mk a, some (String.mk b))

/-- Model of Python `list.index` restricted to its first-match result:
the index of the first element equal to `x`, if any. -/
def pyIndex (x : String) : List String → Option Nat
  | [] => none
  | y :: ys => if y = x then some 0 else (pyIndex x ys).map (· + 1)

/-- Substring occurrence on character lists (Python `pat in s`). -/
def containsSub (pat : List Char) : List Char → Bool
  | [] => pat.isPrefixOf []
  | c :: cs => pat.isPrefixOf (c :: cs) || containsSub pat cs

/-- Model of the Python substring test `pat in s`. -/
def strContains (s pat : String) : Bool := containsSub pat.data s.data

/-- Concatenation of a list of strings (left to right). -/
def strConcat : List String → String
  | [] => ""
  | s :: rest => s ++ strConcat rest

/-! ## SHA-256 and HMAC-SHA256

The source authenticates requests with
`hmac.new(secret, basestring, hashlib.sha256).hexdigest()`.  FIPS 180-4
SHA-256 and RFC 2104 HMAC are embedded below over byte lists (`List Nat`,
every element `< 256`), with 32-bit words as `Nat` reduced mod `2^32`.
-/

/-- `2^32`, the word modulus of SHA-256. -/
def M32 : Nat := 4294967296

/-- Right rotation of a 32-bit word. -/
def rotr32 (n w : Nat) : Nat := ((w >>> n) ||| (w <<< (32 - n))) % M32

/-- SHA-256 `Ch` function. -/
def shaCh (x y z : Nat) : Nat := (x &&& y) ^^^ ((x ^^^ 4294967295) &&& z)

/-- SHA-256 `Maj` function. -/
def shaMaj (x y z : Nat) : Nat := (x &&& y) ^^^ (x &&& z) ^^^ (y &&& z)

/-- SHA-256 big Sigma-0. -/
def bigS0 (w : Nat) : Nat := rotr32 2 w ^^^ rotr32 13 w ^^^ rotr32 22 w

/-- SHA-256 big Sigma-1. -/
def bigS1 (w : Nat) : Nat := rotr32 6 w ^^^ rotr32 11 w ^^^ rotr32 25 w

/-- SHA-256 small sigma-0. -/
def smallS0 (w : Nat) : Nat := rotr32 7 w ^^^ rotr32 18 w ^^^ (w >>> 3)

/-- SHA-256 small sigma-1. -/
def smallS1 (w : Nat) : Nat := rotr32 17 w ^^^ rotr32 19 w ^^^ (w >>> 10)

/-- The 64 SHA-256 round constants (FIPS 180-4 section 4.2.2, in decimal). -/
def sha256K : List Nat :=
  [1116352408, 1899447441, 3049323471, 3921009573, 961987163,
   1508970993, 2453635748, 2870763221, 3624381080, 310598401,
   607225278, 1426881987, 1925078388, 2162078206, 2614888103,
   3248222580, 3835390401, 4022224774, 264347078, 604807628,
   770255983, 1249150122, 1555081692, 1996064986, 2554220882,
   2821834349, 2952996808, 3210313671, 3336571891, 3584528711,
   113926993, 338241895, 666307205, 773529912, 1294757372,
   1396182291, 1695183700, 1986661051, 2177026350, 2456956037,
   2730485921, 2820302411, 3259730800, 3345764771, 3516065817,
   3600352804, 4094571909, 275423344, 430227734, 506948616,
   659060556, 883997877, 958139571, 1322822218, 1537002063,
   1747873779, 1955562222, 2024104815, 2227730452, 2361852424,
   2428436474, 2756734187, 3204031479, 3329325298]

/-- The SHA-256 initial hash value (FIPS 180-4 section 5.3.3, in decimal). -/
def sha256H0 : List Nat :=
  [1779033703, 3144134277, 1013904242, 2773480762,
   1359893119, 2600822924, 528734635, 1541459225]

/-- Big-endian 8-byte encoding. -/
def be64 (n : Nat) : List Nat :=
  [(n >>> 56) % 256, (n >>> 48) % 256, (n >>> 40) % 256, (n >>> 32) % 256,
   (n >>> 24) % 256, (n >>> 16) % 256, (n >>> 8) % 256, n % 256]

/-- Big-endian 4-byte encoding of a 32-bit word. -/
def be32 (n : Nat) : List Nat := [(n >>> 24) % 256, (n >>> 16) % 256, (n >>> 8) % 256, n % 256]

/-- SHA-256 message padding: `0x80`, zeros, then the bit length, to a 64-byte
multiple. -/
def padMsg (msg : List Nat) : List Nat :=
  let L := msg.length
  let z := (119 - L % 64) % 64
  msg ++ 0x80 :: List.replicate z 0 ++ be64 (8 * L)

/-- Split into 64-byte chunks (fuelled to stay structural). -/
def chunksAux : Nat → List Nat → List (List Nat)
  | 0, _ => []
  | _, [] => []
  | fuel + 1, l => l.take 64 :: chunksAux fuel (l.drop 64)

/-- The 64-byte blocks of a padded message. -/
def chunks64 (l : List Nat) : List (List Nat) := chunksAux l.length l

/-- Four bytes to one big-endian 32-bit word, over a whole block. -/
def toWords : List Nat → List Nat
  | b0 :: b1 :: b2 :: b3 :: rest => ((b0 <<< 24) ||| (b1 <<< 16) ||| (b2 <<< 8) ||| b3) :: toWords rest
  | _ => []

/-- Extend the 16 block words to the 64-entry message schedule. -/
def schedAux : Nat → List Nat → List Nat
  | 0, ws => ws
  | n + 1, ws =>
    let i := ws.length
    let w := (smallS1 (ws.getD (i - 2) 0) + ws.getD (i - 7) 0 +
              smallS0 (ws.getD (i - 15) 0) + ws.getD (i - 16) 0) % M32
    schedAux n (ws ++ [w])

/-- The SHA-256 message schedule of one block. -/
def schedule (block16 : List Nat) : List Nat := schedAux 48 block16

/-- One SHA-256 round on the eight-word working state. -/
def roundFn (st : List Nat) (ki wi : Nat) : List Nat :=
  let a := st.getD 0 0
  let b := st.getD 1 0
  let c := st.getD 2 0
  let d := st.getD 3 0
  let e := st.getD 4 0
  let f := st.getD 5 0
  let g := st.getD 6 0
  let h := st.getD 7 0
  let t1 := (h + bigS1 e + shaCh e f g + ki + wi) % M32
  let t2 := (bigS0 a + shaMaj a b c) % M32
  [(t1 + t2) % M32, a, b, c, (d + t1) % M32, e, f, g]

/-- Run the 64 rounds over the zipped constants and schedule. -/
def rounds : List (Nat × Nat) → List Nat → List Nat
  | [], st => st
  | (k, w) :: rest, st => rounds rest (roundFn st k w)

/-- SHA-256 compression of one block into the running hash. -/
def compress (h block : List Nat) : List Nat :=
  let ws := schedule (toWords block)
  let st := rounds (sha256K.zip ws) h
  (h.zip st).map (fun p => (p.1 + p.2) % M32)

/-- SHA-256 of a byte list, as a 32-byte list. -/
def sha256 (msg : List Nat) : List Nat :=
  (((chunks64 (padMsg msg)).foldl compress sha256H0).map be32).flatten

/-- RFC 2104 HMAC-SHA256 (block size 64). -/
def hmacSha256 (key msg : List Nat) : List Nat :=
  let k0 := if key.length > 64 then sha256 key else key
  let k := k0 ++ List.replicate (64 - k0.length) 0
  let ipadKey := k.map (fun b => b ^^^ 0x36)
  let opadKey := k.map (fun b => b ^^^ 0x5c)
  sha256 (opadKey ++ sha256 (ipadKey ++ msg))

/-- Lowercase hex digit. -/
def hexChar (n : Nat) : Char := if n < 10 then Char.ofNat (48 + n) else Char.ofNat (87 + n)

/-- Lowercase hex rendering of a byte list (Python `hexdigest`). -/
def bytesToHex (bs : List Nat) : String :=
  String.mk (bs.flatMap (fun b => [hexChar (b / 16), hexChar (b % 16)]))

/-- UTF-8 encoding of one character. -/
def charUtf8 (c : Char) : List Nat :=
  let n := c.toNat
  if n < 0x80 then [n]
  else if n < 0x800 then [0xC0 ||| (n >>> 6), 0x80 ||| (n &&& 0x3F)]
  else if n < 0x10000 then
    [0xE0 ||| (n >>> 12), 0x80 ||| ((n >>> 6) &&& 0x3F), 0x80 ||| (n &&& 0x3F)]
  else
    [0xF0 ||| (n >>> 18), 0x80 ||| ((n >>> 12) &&& 0x3F),
     0x80 ||| ((n >>> 6) &&& 0x3F), 0x80 ||| (n &&& 0x3F)]

/-- UTF-8 bytes of a string (Python `str.encode()`). -/
def strBytes (s : String) : List Nat := s.data.flatMap charUtf8

/-! ## `urllib.parse.urlparse(url).path`

The source's ticket-key extractor uses only the `path` component of
`urlparse`.  The model below follows CPython's `urlsplit`/`urlparse`: remove
tab/CR/LF and surrounding C0-control-or-space bytes, strip a syntactically
valid scheme, skip a `//netloc` up to the next `/`, `?` or `#` delimiter,
cut the fragment (first `#`) then the query (first `?`), and finally split
`;params` off the last path segment.
-/

/-- C0 control characters and space, stripped from both ends by `urlsplit`. -/
def isC0OrSpace (c : Char) : Bool := c.toNat ≤ 32

/-- Strip C0-control-or-space characters from both ends. -/
def stripC0 (l : List Char) : List Char :=
  ((l.dropWhile isC0OrSpace).reverse.dropWhile isC0OrSpace).reverse

/-- Characters allowed in a URL scheme after the leading letter. -/
def schemeChar (c : Char) : Bool :=
  c.isAlphanum || c = '+' || c = '-' || c = '.'

/-- Index of the first `':'`, as Python `url.find(':')`. -/
def firstColon : List Char → Option Nat
  | [] => none
  | c :: cs => if c = ':' then some 0 else (firstColon cs).map (· + 1)

/-- Remove a leading `scheme:` when it is well formed, as `urlsplit` does. -/
def splitScheme (l : List Char) : List Char :=
  match firstColon l with
  | none => l
  | some i =>
    if 0 < i ∧ (l.headD ' ').isAlpha ∧ (l.take i).all schemeChar then
      l.drop (i + 1)
    else l

/-- After `"//"`, everything up to the next `/`, `?` or `#` is the netloc. -/
def dropToDelim : List Char → List Char
  | [] => []
  | c :: cs => if c = '/' ∨ c = '?' ∨ c = '#' then c :: cs else dropToDelim cs

/-- Skip the `//netloc` part when present. -/
def afterNetloc : List Char → List Char
  | '/' :: '/' :: rest => dropToDelim rest
  | l => l

/-- Split at the last `'/'`: the part before it and the part after it. -/
def splitLastSlash : List Char → Option (List Char × List Char)
  | [] => none
  | c :: cs =>
    match splitLastSlash cs with
    | some (a, b) => some (c :: a, b)
    | none => if c = '/' then some ([], cs) else none

/-- `urlparse`'s `_splitparams`: drop `;params` from the last path segment. -/
def splitParams (l : List Char) : List Char :=
  if l.contains ';' then
    match splitLastSlash l with
    | some (a, b) =>
      if b.contains ';' then a ++ '/' :: b.takeWhile (· ≠ ';') else l
    | none => l.takeWhile (· ≠ ';')
  else l

/-- The `path` component of `urllib.parse.urlparse`. -/
def urlparsePath (url : String) : String :=
  let s := (stripC0 url.data).filter (fun c => c ≠ '\t' ∧ c ≠ '\r' ∧ c ≠ '\n')
  let s := splitScheme s
  let s := afterNetloc s
  let s := (s.takeWhile (· ≠ '#')).takeWhile (· ≠ '?')
  String.mk (splitParams s)

set_option maxRecDepth 100000

/-- FIPS 180-4 test vector: SHA-256 of `"abc"`. -/
theorem sha256_vector_abc :
    bytesToHex (sha256 (strBytes "abc")) =
      "ba7816bf8f01cfea414140de5dae2223b00361a396177a9cb410ff61f20015ad" := by decide

/-- RFC 4231-style check: HMAC-SHA256 with key `"key"` over a known message. -/
theorem hmac_vector_fox :
    bytesToHex (hmacSha256 (strBytes "key")
        (strBytes "The quick brown fox jumps over the lazy dog")) =
      "f7bc83f430538424b13298e6aa6fb143ef4d59a14946175997479dbc2d1a3cd8" := by decide

/-! ## Ticket Reference Resolver (`extract_ticket_key_from_url`)

Source lines 436-460: split `urlparse(url).path` on `'/'`; if `'browse'`
occurs among the segments and has a following segment, return that segment
uppercased; otherwise return the first segment containing a dash and a
digit, uppercased; otherwise raise `ValueError`, which the outer handler
re-wraps as `"Invalid Jira ticket URL: ..."`.
-/

/-- Python `'-' in part and any(c.isdigit() for c in part)`. -/
def hasKeyShape (p : String) : Bool := p.data.contains '-' && p.data.any Char.isDigit

/-- The source's fallback loop: the first dash-and-digit segment, uppercased. -/
def scanKey : List String → Option String
  | [] => none
  | p :: ps => if hasKeyShape p then some (pyUpper p) else scanKey ps

/-- The key choice of `extract_ticket_key_from_url` on the path segments. -/
def extractFromParts (parts : List String) : Option String :=
  match pyIndex "browse" parts with
  | some i =>
    if i + 1 < parts.length then some (pyUpper (parts.getD (i + 1) ""))
    else scanKey parts
  | none => scanKey parts

/-- Python `str.split(sep)` for a one-character separator: empty pieces are
kept, and the empty string yields one empty piece. -/
def pySplitChar (sep : Char) : List Char → List (List Char)
  | [] => [[]]
  | c :: cs =>
    let r := pySplitChar sep cs
    if c = sep then [] :: r
    else
      match r with
      | [] => [[c]]
      | h :: t => (c :: h) :: t

/-- The path segments the source scans: `urlparse(url).path.split('/')`. -/
def pathParts (url : String) : List String :=
  (pySplitChar '/' (urlparsePath url).data).map String.mk

/-- `extract_ticket_key_from_url` (source lines 436-460).  A raised
`ValueError` is modelled as `Except.error` carrying the re-wrapped message. -/
def extract_ticket_key_from_url (url : String) : Except String String :=
  match extractFromParts (pathParts url) with
  | some k => Except.ok k
  | none => Except.error "Invalid Jira ticket URL: Could not find ticket key in URL"

deriving instance DecidableEq for Except

/-! ## `/ask` model-name parsing (source lines 323-333) -/

/-- The recognized model names (source line 324). -/
def valid_models : List String := ["gemini-1.5-pro", "gemini-1.5-flash", "gemini-2.0-flash"]

/-- Model/question selection of `process_ask_command_async` (lines 323-333):
defaults, then an override only when the text lower-starts with `"gemini-"`
and `text.split(" ", 1)` yields a recognized first part and a remainder. -/
def parseAsk (text : String) : String × String :=
  if pyStartsWith (pyLower text) "gemini-" then
    match pySplit1 text with
    | (p0, some p1) => if p0 ∈ valid_models then (p0, p1) else ("gemini-1.5-pro", text)
    | (_, none) => ("gemini-1.5-pro", text)
  else ("gemini-1.5-pro", text)

/-! ## The asynchronous `/ask` task (source lines 309-418)

External effects are reified: every `send_delayed_response` call is recorded
as a `SlackMsg` (the JSON payload fields the source sets), and every
`time.sleep(0.5)` as one tick of `sleeps`.  The generation stream is an
event list: text fragments as yielded by `generate_response` (source line
372), optionally ending in a raised exception.  The message handle
`message_ts` is an environment input: `some t` models a first send whose
response was `ok` with JSON field `ts = t`, `none` a failed first send. -/

/-- One payload posted to the `response_url` (the dict fields the source
builds: `response_type`, `text`, the two section block texts, and
`replace_original`; an absent `replace_original` key is `false`). -/
structure SlackMsg where
  response_type : String
  text : Option String
  blocks : Option (String × String)
  replace_original : Bool
deriving DecidableEq, Repr

/-- One event of the generation stream: a yielded fragment, or an exception
raised during iteration. -/
inductive StreamEv where
  | frag (s : String)
  | errEv (e : String)
deriving DecidableEq, Repr

/-- The first block of every `/ask` message (source lines 343-349, 377-383). -/
def headerBlock (m q : String) : String :=
  "*Model:* " ++ m ++ "\n*Question/Task:*\n" ++ q

/-- The initial placeholder message (source lines 343-363). -/
def initialMsg (m q : String) : SlackMsg :=
  ⟨"in_channel", none, some (headerBlock m q, "*Response:*\nThinking..."), false⟩

/-- The per-fragment replacement update (source lines 377-398). -/
def updateMsg (m q acc : String) : SlackMsg :=
  ⟨"in_channel", none, some (headerBlock m q, "*Response:*\n" ++ acc), true⟩

/-- The generation-error message (source lines 407-410). -/
def genErrorMsg (e : String) : SlackMsg :=
  ⟨"ephemeral", some ("Error generating response: " ++ e), none, false⟩

/-- The empty-text usage message (source lines 317-320). -/
def usageMsg : SlackMsg :=
  ⟨"ephemeral",
   some ("Please provide a question or task. Usage: /ask [model] [your question] or share a URL/file to analyze.\nAvailable models: gemini-1.5-pro, gemini-1.5-flash, gemini-2.0-flash"),
   none, false⟩

/-- Python truthiness of `message_ts` in `if message_ts:`. -/
def tsTruthy : Option String → Bool
  | none => false
  | some t => t ≠ ""

/-- Observable outcome of one `/ask` task: the payloads sent (in order), the
number of rate-limit sleeps, the final accumulated text, and how many
fragments were consumed. -/
structure AskRun where
  sends : List SlackMsg
  sleeps : Nat
  accumulated : String
  consumedFrags : Nat
deriving DecidableEq, Repr

/-- The fragment-consumption loop (source lines 372-411): append each chunk
to the accumulator; when `message_ts` is truthy, send a replacement update
and sleep; a raised exception aborts iteration and sends the error text. -/
def askLoop (m q : String) (ts : Option String) : List StreamEv → AskRun → AskRun
  | [], st => st
  | StreamEv.frag s :: rest, st =>
    let acc := st.accumulated ++ s
    if tsTruthy ts then
      askLoop m q ts rest
        ⟨st.sends ++ [updateMsg m q acc], st.sleeps + 1, acc, st.consumedFrags + 1⟩
    else
      askLoop m q ts rest ⟨st.sends, st.sleeps, acc, st.consumedFrags + 1⟩
  | StreamEv.errEv e :: _, st =>
    ⟨st.sends ++ [genErrorMsg e], st.sleeps, st.accumulated, st.consumedFrags⟩

/-- `process_ask_command_async` (source lines 309-418): usage message on
empty text, otherwise model parsing, the initial send, and the loop. -/
def process_ask_command_async (text : String) (ts : Option String)
    (events : List StreamEv) : AskRun :=
  if text = "" then ⟨[usageMsg], 0, "", 0⟩
  else
    let mq := parseAsk text
    askLoop mq.1 mq.2 ts events ⟨[initialMsg mq.1 mq.2], 0, "", 0⟩

/-! ## `/create-specs` (source lines 462-527) and its collaborators -/

/-- Environment of one `/create-specs` invocation: the configured Jira base
URL and the outcomes of the three outbound calls.  `getTicket` models
`get_jira_ticket_details` (source lines 48-61): `(some summary, description)`
on success, `(none, errorText)` on a request failure.  `generate` models the
`model.generate_content` call inside `generate_specs`: `ok text` for a
returned response, `error msg` for a raised exception.  `addComment` models
`add_jira_comment` (lines 86-97): `ok` for `True`, `error e` for `str(e)`. -/
structure SpecsOracles where
  jira_url : String
  getTicket : String → Option String × String
  generate : Except String String
  addComment : Except String Unit

/-- `generate_specs` (source lines 63-84): returns `response.text`, and on a
raised exception returns `str(e)` instead. -/
def generate_specs (outcome : Except String String) : String :=
  match outcome with
  | Except.ok t => t
  | Except.error e => e

/-- Observable outcome of `handle_create_specs`: the JSON response and a log
of every outbound call (ticket reads by key, generation calls with their
`(summary, description, user_prompt)` arguments, comment writes with their
`(key, body)` arguments). -/
structure SpecsResult where
  response_type : String
  text : String
  ticketReads : List String
  genCalls : List (String × String × String)
  commentWrites : List (String × String)
deriving DecidableEq, Repr

/-- `handle_create_specs` (source lines 462-527), translated step by step. -/
def handle_create_specs (o : SpecsOracles) (rawText : String) : SpecsResult :=
  let command_text := pyStrip rawText
  if command_text = "" then
    ⟨"ephemeral",
     "Please provide a Jira ticket URL and optional prompt. Usage: /create-specs https://your-jira.atlassian.net/browse/PROJ-123 [prompt]",
     [], [], []⟩
  else
    let parts := pySplit1 command_text
    let ticket_url := parts.1
    let user_prompt := parts.2.getD ""
    match extract_ticket_key_from_url ticket_url with
    | Except.error e => ⟨"ephemeral", e, [], [], []⟩
    | Except.ok ticket_key =>
      if ¬ pyStartsWith ticket_url o.jira_url then
        ⟨"ephemeral",
         "Error: The provided URL must be from your configured Jira instance (" ++ o.jira_url ++ ")",
         [], [], []⟩
      else
        match o.getTicket ticket_key with
        | (none, errText) =>
          ⟨"ephemeral", "Error retrieving Jira ticket: " ++ errText, [ticket_key], [], []⟩
        | (some summary, description) =>
          let specs := generate_specs o.generate
          if strContains specs "Error" then
            ⟨"ephemeral", "Error generating specs: " ++ specs,
             [ticket_key], [(summary, description, user_prompt)], []⟩
          else
            match o.addComment with
            | Except.ok _ =>
              ⟨"in_channel",
               "✅ Successfully added specifications to Jira ticket " ++ ticket_key ++ "\nTicket URL: " ++ ticket_url,
               [ticket_key], [(summary, description, user_prompt)], [(ticket_key, specs)]⟩
            | Except.error e =>
              ⟨"ephemeral", "Error adding comment to Jira: " ++ e,
               [ticket_key], [(summary, description, user_prompt)], [(ticket_key, specs)]⟩

/-! ## Request authentication and dispatch (`handle_slack_command`, lines 224-307) -/

/-- One inbound slash-command request: the two verification headers, the raw
body, and the form fields the handler reads. -/
structure CommandRequest where
  timestamp : String
  signature : String
  rawBody : String
  command : String
  text : String
  channel_id : String
  response_url : String

/-- Functional model of `hmac.compare_digest` (constant-time in the source;
its value is equality of the two strings). -/
def compare_digest (a b : String) : Bool := a == b

/-- The expected signature (source lines 246-253): `"v0="` plus the hex
HMAC-SHA256 of `"v0:" ++ timestamp ++ ":" ++ rawBody` keyed by the secret. -/
def expectedSignature (secret timestamp rawBody : String) : String :=
  "v0=" ++ bytesToHex (hmacSha256 (strBytes secret)
    (strBytes ("v0:" ++ timestamp ++ ":" ++ rawBody)))

/-- Outcome of `handle_slack_command`: the 401 rejection, or exactly one of
the four dispatch results. -/
inductive CommandOutcome where
  | unauthorized
  | askAck (text channel responseUrl : String)
  | createSpecsResult (r : SpecsResult)
  | listModelsResult (text : String)
  | unknownCommand (cmd : String)
deriving DecidableEq, Repr

/-- `handle_slack_command` (source lines 224-307): verify the signature,
reject with 401 on mismatch, otherwise dispatch on the `command` field.
`modelsText` is the oracle for `list_gemini_models`. -/
def handle_slack_command (secret : String) (o : SpecsOracles) (modelsText : String)
    (req : CommandRequest) : CommandOutcome :=
  if ¬ compare_digest (expectedSignature secret req.timestamp req.rawBody) req.signature then
    CommandOutcome.unauthorized
  else if req.command = "/ask" then
    CommandOutcome.askAck (pyStrip req.text) req.channel_id req.response_url
  else if req.command = "/create-specs" then
    CommandOutcome.createSpecsResult (handle_create_specs o req.text)
  else if req.command = "/list-models" then
    CommandOutcome.listModelsResult ("*Available Gemini Models:*\n" ++ modelsText)
  else
    CommandOutcome.unknownCommand req.command

/-- HTTP rendering of each outcome: status code, `response_type`, body text
(the `text` field, or the leading block text for block responses). -/
def renderOutcome : CommandOutcome → Nat × String × String
  | CommandOutcome.unauthorized => (401, "", "Invalid request signature")
  | CommandOutcome.askAck _ _ _ =>
    (200, "in_channel", "Processing your request... This may take a few seconds.")
  | CommandOutcome.createSpecsResult r => (200, r.response_type, r.text)
  | CommandOutcome.listModelsResult t => (200, "in_channel", t)
  | CommandOutcome.unknownCommand c => (200, "ephemeral", "Unknown command: " ++ c)

/-! ## Lemmas about the streaming loop -/

/-- With a truthy message handle, the loop sends one replacement per
fragment carrying each prefix concatenation, sleeps once per fragment, and
accumulates every fragment. -/
theorem askLoop_truthy (m q : String) (ts : Option String) (hts : tsTruthy ts = true) :
    ∀ (frags : List String) (st : AskRun),
      askLoop m q ts (frags.map StreamEv.frag) st =
        ⟨st.sends ++ (List.range frags.length).map
            (fun i => updateMsg m q (st.accumulated ++ strConcat (frags.take (i + 1)))),
         st.sleeps + frags.length, st.accumulated ++ strConcat frags,
         st.consumedFrags + frags.length⟩ := by
  intro frags
  induction frags with
  | nil => intro st; simp [askLoop, strConcat, String.append_empty]
  | cons f rest ih =>
    intro st
    simp only [List.map_cons, askLoop, hts, if_pos]
    rw [ih]
    simp [List.range_succ_eq_map, List.map_map, Function.comp, strConcat,
      String.append_assoc, String.append_empty, List.append_assoc, Nat.add_assoc,
      Nat.add_comm 1 rest.length]

/-- With no (or a falsy) message handle, the loop sends nothing and never
sleeps, but still consumes and accumulates every fragment. -/
theorem askLoop_falsy (m q : String) (ts : Option String) (hts : tsTruthy ts = false) :
    ∀ (frags : List String) (st : AskRun),
      askLoop m q ts (frags.map StreamEv.frag) st =
        ⟨st.sends, st.sleeps, st.accumulated ++ strConcat frags,
         st.consumedFrags + frags.length⟩ := by
  intro frags
  induction frags with
  | nil => intro st; simp [askLoop, strConcat, String.append_empty]
  | cons f rest ih =>
    intro st
    simp only [List.map_cons, askLoop, hts, if_neg, Bool.false_eq_true, not_false_iff]
    rw [ih]
    simp [strConcat, String.append_assoc, Nat.add_assoc, Nat.add_comm 1 rest.length]

/-- An exception event stops the loop: everything after it is ignored, the
error message is appended as the last send, and no further fragment is
consumed. -/
theorem askLoop_err (m q : String) (ts : Option String) (e : String) (rest : List StreamEv) :
    ∀ (frags : List String) (st : AskRun),
      askLoop m q ts (frags.map StreamEv.frag ++ StreamEv.errEv e :: rest) st =
        ⟨(askLoop m q ts (frags.map StreamEv.frag) st).sends ++ [genErrorMsg e],
         (askLoop m q ts (frags.map StreamEv.frag) st).sleeps,
         (askLoop m q ts (frags.map StreamEv.frag) st).accumulated,
         (askLoop m q ts (frags.map StreamEv.frag) st).consumedFrags⟩ := by
  intro frags
  induction frags with
  | nil => intro st; simp [askLoop]
  | cons f rest' ih =>
    intro st
    cases h : tsTruthy ts with
    | true =>
      simp only [List.map_cons, List.cons_append, askLoop, h, if_true, List.append_eq]
      rw [ih]
    | false =>
      simp only [List.map_cons, List.cons_append, askLoop, h, Bool.false_eq_true,
        if_false, List.append_eq]
      rw [ih]

/-! ## Claim theorems: the `/ask` streaming aggregator -/

/-- C1: when the initial delayed send returned a (truthy) message handle, the
`/ask` task sends exactly one replacement update per fragment, in arrival
order, and the accumulated text carried by the i-th update is the
concatenation of the first i fragments; in particular the fragments
`["Hel", "lo, ", "world"]` produce exactly the accumulated texts
`["Hel", "Hello, ", "Hello, world"]` in that order. -/
theorem ask_stream_updates (text : String) (ts : Option String) (frags : List String)
    (htext : text ≠ "") (hts : tsTruthy ts = true) :
    (process_ask_command_async text ts (frags.map StreamEv.frag)).sends =
      initialMsg (parseAsk text).1 (parseAsk text).2 ::
        (List.range frags.length).map (fun i =>
          updateMsg (parseAsk text).1 (parseAsk text).2 (strConcat (frags.take (i + 1)))) ∧
    (process_ask_command_async "hi" (some "1")
        [StreamEv.frag "Hel", StreamEv.frag "lo, ", StreamEv.frag "world"]).sends =
      [initialMsg "gemini-1.5-pro" "hi",
       updateMsg "gemini-1.5-pro" "hi" "Hel",
       updateMsg "gemini-1.5-pro" "hi" "Hello, ",
       updateMsg "gemini-1.5-pro" "hi" "Hello, world"] := by
  constructor
  · simp only [process_ask_command_async]
    rw [if_neg htext, askLoop_truthy _ _ _ hts]
    simp [String.empty_append]
  · decide

/-- Witness for C1 at a concrete input. -/
theorem ask_stream_updates_witness :
    (process_ask_command_async "hi" (some "1") (["a"].map StreamEv.frag)).sends =
      initialMsg (parseAsk "hi").1 (parseAsk "hi").2 ::
        (List.range (["a"] : List String).length).map (fun i =>
          updateMsg (parseAsk "hi").1 (parseAsk "hi").2
            (strConcat ((["a"] : List String).take (i + 1)))) :=
  (ask_stream_updates "hi" (some "1") ["a"] (by decide) rfl).1

/-- C3 counterexample: on a generation error the task does send an
ephemeral error message, but it is not issued as a replacement — the payload
carries no `replace_original: True` flag (compare source lines 394-398 with
407-410). -/
theorem ask_error_replacement_counterexample :
    (process_ask_command_async "q" (some "1")
        [StreamEv.frag "Hel", StreamEv.errEv "boom"]).sends.getLast? =
      some (genErrorMsg "boom") ∧
    (genErrorMsg "boom").replace_original = false ∧
    (genErrorMsg "boom").response_type = "ephemeral" := by decide

/-- C3 (amended): if the generation stream raises after some fragments, the
task aborts the iteration (events after the exception are never consumed and
its result is as if they were absent), sends as its last payload an
ephemeral error message — a new message, not a replacement — instead of the
accumulated text, and consumes no further fragments. -/
theorem ask_error_aborts (text : String) (ts : Option String) (frags : List String)
    (e : String) (rest : List StreamEv) (htext : text ≠ "") :
    process_ask_command_async text ts (frags.map StreamEv.frag ++ StreamEv.errEv e :: rest) =
      process_ask_command_async text ts (frags.map StreamEv.frag ++ [StreamEv.errEv e]) ∧
    (process_ask_command_async text ts
        (frags.map StreamEv.frag ++ StreamEv.errEv e :: rest)).sends.getLast? =
      some (genErrorMsg e) ∧
    (process_ask_command_async text ts
        (frags.map StreamEv.frag ++ StreamEv.errEv e :: rest)).consumedFrags =
      frags.length ∧
    (genErrorMsg e).response_type = "ephemeral" ∧
    (genErrorMsg e).text = some ("Error generating response: " ++ e) ∧
    (genErrorMsg e).replace_original = false := by
  refine ⟨?_, ?_, ?_, rfl, rfl, rfl⟩
  · simp only [process_ask_command_async]
    rw [if_neg htext, askLoop_err, askLoop_err, if_neg htext]
  · simp only [process_ask_command_async]
    rw [if_neg htext, askLoop_err]
    simp
  · simp only [process_ask_command_async]
    rw [if_neg htext, askLoop_err]
    cases h : tsTruthy ts with
    | true => rw [askLoop_truthy _ _ _ h]; simp
    | false => rw [askLoop_falsy _ _ _ h]; simp

/-- Witness for the amended C3 at a concrete input. -/
theorem ask_error_aborts_witness :
    process_ask_command_async "q" (some "1")
        (["Hel"].map StreamEv.frag ++ StreamEv.errEv "boom" :: [StreamEv.frag "ignored"]) =
      process_ask_command_async "q" (some "1")
        (["Hel"].map StreamEv.frag ++ [StreamEv.errEv "boom"]) :=
  (ask_error_aborts "q" (some "1") ["Hel"] "boom" [StreamEv.frag "ignored"] (by decide)).1

/-- C9: when the initial delayed send does not yield a (truthy) message
handle, the task sends no per-fragment update at all and never sleeps, yet
still consumes the entire fragment stream and accumulates every fragment;
the only payload ever posted is the initial one. -/
theorem ask_no_handle (text : String) (ts : Option String) (frags : List String)
    (htext : text ≠ "") (hts : tsTruthy ts = false) :
    (process_ask_command_async text ts (frags.map StreamEv.frag)).sends =
      [initialMsg (parseAsk text).1 (parseAsk text).2] ∧
    (∀ msg ∈ (process_ask_command_async text ts (frags.map StreamEv.frag)).sends,
      msg.replace_original = false) ∧
    (process_ask_command_async text ts (frags.map StreamEv.frag)).sleeps = 0 ∧
    (process_ask_command_async text ts (frags.map StreamEv.frag)).accumulated =
      strConcat frags ∧
    (process_ask_command_async text ts (frags.map StreamEv.frag)).consumedFrags =
      frags.length := by
  simp only [process_ask_command_async]
  rw [if_neg htext, askLoop_falsy _ _ _ hts]
  simp [initialMsg, String.empty_append]

/-- Witness for C9 at a concrete input. -/
theorem ask_no_handle_witness :
    (process_ask_command_async "hi" none (["a", "b"].map StreamEv.frag)).sends =
      [initialMsg (parseAsk "hi").1 (parseAsk "hi").2] :=
  (ask_no_handle "hi" none ["a", "b"] (by decide) rfl).1

/-! ## Claim theorems: `/ask` model-name parsing -/

/-- A successful first-space split decomposes the character list. -/
theorem splitFirstSpace_some : ∀ {l a b : List Char},
    splitFirstSpace l = some (a, b) → l = a ++ ' ' :: b := by
  intro l
  induction l with
  | nil => intro a b h; simp [splitFirstSpace] at h
  | cons c cs ih =>
    intro a b h
    by_cases hc : c = ' '
    · subst hc
      simp only [splitFirstSpace, eq_self_iff_true, if_true, Option.some.injEq,
        Prod.mk.injEq] at h
      rw [← h.1, ← h.2]
      rfl
    · simp only [splitFirstSpace, if_neg hc, Option.map_eq_some'] at h
      obtain ⟨⟨a', b'⟩, h1, h2⟩ := h
      obtain ⟨ha, hb⟩ := Prod.mk.injEq .. ▸ h2
      rw [← ha, ← hb]
      simp [ih h1]

/-- If `split(" ", 1)` produced a recognized model as its first part, the
text necessarily lower-starts with `"gemini-"`, so the source's guard at
line 329 cannot suppress the override. -/
theorem valid_model_guard {text p0 p1 : String}
    (hs : pySplit1 text = (p0, some p1)) (hm : p0 ∈ valid_models) :
    pyStartsWith (pyLower text) "gemini-" = true := by
  unfold pySplit1 at hs
  rcases h' : splitFirstSpace text.data with _ | ⟨a, b⟩
  · rw [h'] at hs; simp at hs
  · rw [h'] at hs
    simp only [Prod.mk.injEq, Option.some.injEq] at hs
    obtain ⟨hp0, _⟩ := hs
    have hdata : text.data = a ++ ' ' :: b := splitFirstSpace_some h'
    have ha : a = p0.data := by rw [← hp0]
    have hp : "gemini-".data <+: p0.data.map Char.toLower := by
      simp [valid_models] at hm
      rcases hm with rfl | rfl | rfl <;> decide
    refine List.isPrefixOf_iff_prefix.mpr ?_
    show "gemini-".data <+: (String.mk (text.data.map Char.toLower)).data
    rw [show (String.mk (text.data.map Char.toLower)).data = text.data.map Char.toLower from rfl,
      hdata, ha, List.map_append]
    exact hp.trans (List.prefix_append _ _)

/-- The `/ask` parsing rule the source actually implements, written out: the
override happens exactly when the text contains a space and the part before
the first space is a recognized model name; in every other case (including a
bare model name with no following space) the default model is kept and the
whole text is the question. -/
def parseAskSpec (text : String) : String × String :=
  match pySplit1 text with
  | (p0, some p1) => if p0 ∈ valid_models then (p0, p1) else ("gemini-1.5-pro", text)
  | (_, none) => ("gemini-1.5-pro", text)

/-- C5 counterexample: `"gemini-1.5-flash"` alone is a whitespace-free
recognized model name — its first whitespace-delimited token is itself — yet
the parser keeps the default model and treats the whole text as the
question, contradicting the claim as stated. -/
theorem parse_ask_claim_counterexample :
    (∀ c ∈ "gemini-1.5-flash".data, c.isWhitespace = false) ∧
    "gemini-1.5-flash" ∈ valid_models ∧
    parseAsk "gemini-1.5-flash" = ("gemini-1.5-pro", "gemini-1.5-flash") ∧
    (parseAsk "gemini-1.5-flash").1 ≠ "gemini-1.5-flash" := by decide

/-- C5 (amended): the parsed pair always follows `parseAskSpec` — a
recognized first space-delimited token selects that model with the remaining
text as question, and otherwise the default model is used with the raw text
unchanged; both concrete examples of the claim hold. -/
theorem parse_ask_amended :
    (∀ text, parseAsk text = parseAskSpec text) ∧
    parseAsk "gemini-1.5-flash what is X" = ("gemini-1.5-flash", "what is X") ∧
    parseAsk "tell me about gemini-pro" = ("gemini-1.5-pro", "tell me about gemini-pro") := by
  refine ⟨?_, by decide, by decide⟩
  intro text
  unfold parseAsk parseAskSpec
  by_cases hg : pyStartsWith (pyLower text) "gemini-" = true
  · rw [if_pos hg]
  · rw [if_neg hg]
    rcases h' : pySplit1 text with ⟨p0, _ | p1⟩
    · rfl
    · by_cases hm : p0 ∈ valid_models
      · exact absurd (valid_model_guard h' hm) hg
      · simp [hm]

/-! ## Claim theorems: the ticket reference resolver -/

/-- A found index is in bounds and points at the sought element. -/
theorem pyIndex_some {x : String} : ∀ {l : List String} {i : Nat},
    pyIndex x l = some i → i < l.length ∧ l.getD i "" = x := by
  intro l
  induction l with
  | nil => intro i h; simp [pyIndex] at h
  | cons y ys ih =>
    intro i h
    by_cases hy : y = x
    · simp only [pyIndex, if_pos hy, Option.some.injEq] at h
      subst h
      exact ⟨Nat.succ_pos _, hy⟩
    · simp only [pyIndex, if_neg hy, Option.map_eq_some'] at h
      obtain ⟨i', hi', rfl⟩ := h
      obtain ⟨h1, h2⟩ := ih hi'
      exact ⟨Nat.succ_lt_succ h1, h2⟩

/-- `pyIndex` finds exactly the first occurrence. -/
theorem pyIndex_of_first {x : String} : ∀ {l : List String} {i : Nat},
    i < l.length → l.getD i "" = x → (∀ j, j < i → l.getD j "" ≠ x) →
    pyIndex x l = some i := by
  intro l
  induction l with
  | nil => intro i h; simp at h
  | cons y ys ih =>
    intro i hlen hget hfirst
    cases i with
    | zero => simp only [List.getD_cons_zero] at hget; simp [pyIndex, hget]
    | succ i' =>
      have hy : y ≠ x := by
        have := hfirst 0 (Nat.succ_pos _)
        simpa using this
      simp only [pyIndex, if_neg hy]
      rw [ih (Nat.lt_of_succ_lt_succ hlen) (by simpa using hget)
        (fun j hj => by simpa using hfirst (j + 1) (Nat.succ_lt_succ hj))]
      rfl

/-- The fallback scan returns the first dash-and-digit segment, uppercased. -/
theorem scanKey_first : ∀ {l : List String} {i : Nat},
    i < l.length → hasKeyShape (l.getD i "") = true →
    (∀ j, j < i → hasKeyShape (l.getD j "") = false) →
    scanKey l = some (pyUpper (l.getD i "")) := by
  intro l
  induction l with
  | nil => intro i h; simp at h
  | cons p ps ih =>
    intro i hlen hkey hfirst
    cases i with
    | zero => simp only [List.getD_cons_zero] at hkey ⊢; simp [scanKey, hkey]
    | succ i' =>
      have hp : hasKeyShape p = false := by
        have := hfirst 0 (Nat.succ_pos _)
        simpa using this
      simp only [List.getD_cons_succ]
      simp only [scanKey, hp, Bool.false_eq_true, if_false]
      exact ih (Nat.lt_of_succ_lt_succ hlen) (by simpa using hkey)
        (fun j hj => by simpa using hfirst (j + 1) (Nat.succ_lt_succ hj))

/-- The fallback scan fails when no segment has the key shape. -/
theorem scanKey_none : ∀ {l : List String},
    (∀ p ∈ l, hasKeyShape p = false) → scanKey l = none := by
  intro l
  induction l with
  | nil => intro _; rfl
  | cons p ps ih =>
    intro h
    simp only [scanKey, h p (List.mem_cons_self p ps), Bool.false_eq_true, if_false]
    exact ih (fun q hq => h q (List.mem_cons_of_mem p hq))

/-- Without a browse segment followed by another segment, the extractor
falls back to the dash-and-digit scan over all segments. -/
theorem extractFromParts_no_browse_next {parts : List String}
    (hb : ∀ i, i + 1 < parts.length → parts.getD i "" ≠ "browse") :
    extractFromParts parts = scanKey parts := by
  unfold extractFromParts
  cases h : pyIndex "browse" parts with
  | none => rfl
  | some i =>
    obtain ⟨hlen, hget⟩ := pyIndex_some h
    dsimp only
    by_cases hi : i + 1 < parts.length
    · exact absurd hget (hb i hi)
    · rw [if_neg hi]

/-- C4: the resolver returns the uppercased segment after the (first)
`browse` segment when one follows it; otherwise the first dash-and-digit
segment, uppercased; otherwise it fails with the key-not-found error — with
the three concrete URL examples of the claim. -/
theorem extract_ticket_key_charn :
    extract_ticket_key_from_url "https://x.atlassian.net/browse/PROJ-123" =
      Except.ok "PROJ-123" ∧
    extract_ticket_key_from_url "https://x.atlassian.net/issues/view/proj-45/detail" =
      Except.ok "PROJ-45" ∧
    extract_ticket_key_from_url "https://x.atlassian.net/" =
      Except.error "Invalid Jira ticket URL: Could not find ticket key in URL" ∧
    (∀ (parts : List String) (i : Nat), parts.getD i "" = "browse" →
      i + 1 < parts.length → (∀ j, j < i → parts.getD j "" ≠ "browse") →
      extractFromParts parts = some (pyUpper (parts.getD (i + 1) ""))) ∧
    (∀ (parts : List String), (∀ i, i + 1 < parts.length → parts.getD i "" ≠ "browse") →
      ∀ i, i < parts.length → hasKeyShape (parts.getD i "") = true →
        (∀ j, j < i → hasKeyShape (parts.getD j "") = false) →
        extractFromParts parts = some (pyUpper (parts.getD i ""))) ∧
    (∀ (url : String),
      (∀ i, i + 1 < (pathParts url).length → (pathParts url).getD i "" ≠ "browse") →
      (∀ p ∈ pathParts url, hasKeyShape p = false) →
      extract_ticket_key_from_url url =
        Except.error "Invalid Jira ticket URL: Could not find ticket key in URL") := by
  refine ⟨by decide, by decide, by decide, ?_, ?_, ?_⟩
  · intro parts i hget hlen hfirst
    unfold extractFromParts
    rw [pyIndex_of_first (Nat.lt_of_succ_lt hlen) hget hfirst]
    dsimp only
    rw [if_pos hlen]
  · intro parts hb i hlen hkey hfirst
    rw [extractFromParts_no_browse_next hb]
    exact scanKey_first hlen hkey hfirst
  · intro url hb hshape
    unfold extract_ticket_key_from_url
    rw [extractFromParts_no_browse_next hb, scanKey_none hshape]

/-- Witness for C4 at concrete segments. -/
theorem extract_ticket_key_charn_witness :
    extractFromParts ["", "browse", "proj-9"] =
      some (pyUpper ((["", "browse", "proj-9"] : List String).getD (1 + 1) "")) :=
  extract_ticket_key_charn.2.2.2.1 ["", "browse", "proj-9"] 1 (by decide) (by decide)
    (by decide)

/-! ## Claim theorems: `/create-specs` -/

/-- C6 counterexample: with base URL `https://jira.example.com`, the ticket
URL `https://other.example.com/` mismatches the origin, yet the handler
answers with the invalid-ticket-URL error — key extraction (source line 478)
runs before the origin check (line 482) — so the response does not cite the
origin mismatch. -/
theorem create_specs_origin_counterexample :
    pyStartsWith "https://other.example.com/" "https://jira.example.com" = false ∧
    (handle_create_specs
        ⟨"https://jira.example.com", fun _ => (some "S", "D"), Except.ok "text", Except.ok ()⟩
        "https://other.example.com/").text =
      "Invalid Jira ticket URL: Could not find ticket key in URL" ∧
    strContains
      (handle_create_specs
        ⟨"https://jira.example.com", fun _ => (some "S", "D"), Except.ok "text", Except.ok ()⟩
        "https://other.example.com/").text "configured Jira instance" = false := by decide

/-- C6 (amended): when the ticket URL does resolve to a key but does not
start with the configured Jira base URL, the handler returns the ephemeral
origin-mismatch response and performs zero ticket reads, zero generation
calls and zero comment writes. -/
theorem create_specs_origin_mismatch (o : SpecsOracles) (rawText key : String)
    (hkey : extract_ticket_key_from_url (pySplit1 (pyStrip rawText)).1 = Except.ok key)
    (horigin : pyStartsWith (pySplit1 (pyStrip rawText)).1 o.jira_url = false) :
    handle_create_specs o rawText =
      ⟨"ephemeral",
       "Error: The provided URL must be from your configured Jira instance (" ++ o.jira_url ++ ")",
       [], [], []⟩ := by
  by_cases hempty : pyStrip rawText = ""
  · have h0 : extract_ticket_key_from_url (pySplit1 (pyStrip rawText)).1 =
        Except.error "Invalid Jira ticket URL: Could not find ticket key in URL" := by
      rw [hempty]; decide
    rw [h0] at hkey
    exact absurd hkey (by simp)
  · unfold handle_create_specs
    rw [if_neg hempty]
    dsimp only
    rw [hkey]
    dsimp only
    simp [horigin]

/-- Witness for the amended C6 at a concrete input. -/
theorem create_specs_origin_mismatch_witness :
    handle_create_specs
        ⟨"https://jira.example.com", fun _ => (some "S", "D"), Except.ok "t", Except.ok ()⟩
        "https://other.example.com/browse/ABC-1 add login" =
      ⟨"ephemeral",
       "Error: The provided URL must be from your configured Jira instance (" ++
         "https://jira.example.com" ++ ")",
       [], [], []⟩ :=
  create_specs_origin_mismatch _ _ "ABC-1" (by decide) (by decide)

/-- C7: once resolution, origin validation and the ticket read succeed, a
generated text containing `"Error"` yields the ephemeral generation-error
response with zero comment writes; otherwise the generated text is posted as
the comment and, when the comment write succeeds, the handler returns the
in-channel confirmation naming the ticket key and URL. -/
theorem create_specs_generation_gate (o : SpecsOracles)
    (rawText key summary description : String)
    (hkey : extract_ticket_key_from_url (pySplit1 (pyStrip rawText)).1 = Except.ok key)
    (horigin : pyStartsWith (pySplit1 (pyStrip rawText)).1 o.jira_url = true)
    (hticket : o.getTicket key = (some summary, description)) :
    (strContains (generate_specs o.generate) "Error" = true →
      (handle_create_specs o rawText).response_type = "ephemeral" ∧
      (handle_create_specs o rawText).text =
        "Error generating specs: " ++ generate_specs o.generate ∧
      (handle_create_specs o rawText).commentWrites = []) ∧
    (strContains (generate_specs o.generate) "Error" = false →
      (handle_create_specs o rawText).commentWrites =
        [(key, generate_specs o.generate)] ∧
      (o.addComment = Except.ok () →
        (handle_create_specs o rawText).response_type = "in_channel" ∧
        (handle_create_specs o rawText).text =
          "✅ Successfully added specifications to Jira ticket " ++ key ++
            "\nTicket URL: " ++ (pySplit1 (pyStrip rawText)).1)) := by
  have hne : ¬ pyStrip rawText = "" := by
    intro hempty
    have h0 : extract_ticket_key_from_url (pySplit1 (pyStrip rawText)).1 =
        Except.error "Invalid Jira ticket URL: Could not find ticket key in URL" := by
      rw [hempty]; decide
    rw [h0] at hkey
    exact absurd hkey (by simp)
  constructor
  · intro hgen
    unfold handle_create_specs
    rw [if_neg hne]
    dsimp only
    rw [hkey]
    dsimp only
    simp [horigin, hticket, hgen]
  · intro hgen
    refine ⟨?_, ?_⟩
    · unfold handle_create_specs
      rw [if_neg hne]
      dsimp only
      rw [hkey]
      dsimp only
      simp only [horigin, hticket, hgen]
      cases hc : o.addComment <;> simp [horigin, hticket, hgen, hc]
    · intro hcomment
      unfold handle_create_specs
      rw [if_neg hne]
      dsimp only
      rw [hkey]
      dsimp only
      simp [horigin, hticket, hgen, hcomment]

/-- Witness for C7 at a concrete input whose generated text contains
`"Error"`. -/
theorem create_specs_generation_gate_witness :
    (handle_create_specs
        ⟨"https://jira.example.com", fun _ => (some "S", "D"),
         Except.ok "Error: quota", Except.ok ()⟩
        "https://jira.example.com/browse/ABC-1 please").commentWrites = [] :=
  ((create_specs_generation_gate _ "https://jira.example.com/browse/ABC-1 please"
      "ABC-1" "S" "D" (by decide) (by decide) rfl).1 (by decide)).2.2

/-- C10: when the generation call raises an exception whose text does not
contain `"Error"` (here `"quota exceeded"`), `generate_specs` returns the
exception text itself (source lines 80-84), the handler posts that text as
the Jira comment, and an in-channel success confirmation is returned. -/
theorem create_specs_exception_as_success :
    generate_specs (Except.error "quota exceeded") = "quota exceeded" ∧
    handle_create_specs
        ⟨"https://jira.example.com", fun _ => (some "Sum", "Desc"),
         Except.error "quota exceeded", Except.ok ()⟩
        "https://jira.example.com/browse/ABC-1 add login flow" =
      ⟨"in_channel",
       "✅ Successfully added specifications to Jira ticket ABC-1\nTicket URL: https://jira.example.com/browse/ABC-1",
       ["ABC-1"], [("Sum", "Desc", "add login flow")], [("ABC-1", "quota exceeded")]⟩ := by
  decide

/-! ## Claim theorems: authentication and dispatch -/

/-- C2: the expected signature is `"v0="` plus the hex HMAC-SHA256 digest of
`"v0:" + timestamp + ":" + rawBody` keyed by the signing secret, and any
request whose signature header differs is answered with the 401 rejection —
no handler outcome is produced.  (`compare_digest` models the source's
constant-time comparison functionally, as string equality.) -/
theorem slack_auth_rejects_bad_signature (secret modelsText : String) (o : SpecsOracles)
    (req : CommandRequest)
    (h : req.signature ≠ expectedSignature secret req.timestamp req.rawBody) :
    handle_slack_command secret o modelsText req = CommandOutcome.unauthorized ∧
    expectedSignature secret req.timestamp req.rawBody =
      "v0=" ++ bytesToHex (hmacSha256 (strBytes secret)
        (strBytes ("v0:" ++ req.timestamp ++ ":" ++ req.rawBody))) ∧
    (renderOutcome CommandOutcome.unauthorized).1 = 401 := by
  refine ⟨?_, rfl, rfl⟩
  have hcmp : compare_digest (expectedSignature secret req.timestamp req.rawBody)
      req.signature = false := by
    unfold compare_digest
    exact beq_eq_false_iff_ne.mpr (fun heq => h heq.symm)
  unfold handle_slack_command
  rw [if_pos (by simp [hcmp])]

/-- Witness for C2: a concrete request with an empty signature header is
rejected. -/
theorem slack_auth_rejects_bad_signature_witness :
    handle_slack_command "s" ⟨"j", fun _ => (none, ""), Except.ok "", Except.ok ()⟩ "m"
        ⟨"t", "", "b", "/ask", "", "", ""⟩ = CommandOutcome.unauthorized :=
  (slack_auth_rejects_bad_signature "s" "m" _ _ (by decide)).1

/-- `l` is always a prefix of itself. -/
theorem isPrefixOf_self (l : List Char) : l.isPrefixOf l = true :=
  List.isPrefixOf_iff_prefix.mpr (List.prefix_refl l)

/-- A pattern occurs in any list that ends with it. -/
theorem containsSub_suffix (pre pat : List Char) : containsSub pat (pre ++ pat) = true := by
  induction pre with
  | nil =>
    cases pat with
    | nil => rfl
    | cons c cs => simp [containsSub, isPrefixOf_self]
  | cons c cs ih => simp [containsSub, ih]

/-- A string contains any of its own suffixes as a substring. -/
theorem strContains_suffix (pre c : String) : strContains (pre ++ c) c = true := by
  unfold strContains
  rw [String.data_append]
  exact containsSub_suffix pre.data c.data

/-- C8: on an authenticated request, dispatch is total — `/ask` yields the
acknowledgment, `/create-specs` the specs result, `/list-models` the model
list, and every other command string the unknown-command outcome, rendered
as a 200 ephemeral message whose text names the unrecognized command. -/
theorem dispatch_total (secret modelsText : String) (o : SpecsOracles) (req : CommandRequest)
    (hauth : compare_digest (expectedSignature secret req.timestamp req.rawBody)
      req.signature = true) :
    (req.command = "/ask" →
      handle_slack_command secret o modelsText req =
        CommandOutcome.askAck (pyStrip req.text) req.channel_id req.response_url) ∧
    (req.command = "/create-specs" →
      handle_slack_command secret o modelsText req =
        CommandOutcome.createSpecsResult (handle_create_specs o req.text)) ∧
    (req.command = "/list-models" →
      handle_slack_command secret o modelsText req =
        CommandOutcome.listModelsResult ("*Available Gemini Models:*\n" ++ modelsText)) ∧
    (req.command ∉ (["/ask", "/create-specs", "/list-models"] : List String) →
      handle_slack_command secret o modelsText req =
        CommandOutcome.unknownCommand req.command ∧
      (renderOutcome (CommandOutcome.unknownCommand req.command)).1 = 200 ∧
      strContains (renderOutcome (CommandOutcome.unknownCommand req.command)).2.2
        req.command = true) := by
  refine ⟨?_, ?_, ?_, ?_⟩
  · intro hc
    unfold handle_slack_command
    rw [if_neg (by simp [hauth]), if_pos hc]
  · intro hc
    have hne : req.command ≠ "/ask" := by rw [hc]; decide
    unfold handle_slack_command
    rw [if_neg (by simp [hauth]), if_neg hne, if_pos hc]
  · intro hc
    have hne1 : req.command ≠ "/ask" := by rw [hc]; decide
    have hne2 : req.command ≠ "/create-specs" := by rw [hc]; decide
    unfold handle_slack_command
    rw [if_neg (by simp [hauth]), if_neg hne1, if_neg hne2, if_pos hc]
  · intro hc
    simp only [List.mem_cons, List.not_mem_nil, or_false, not_or] at hc
    obtain ⟨h1, h2, h3⟩ := hc
    refine ⟨?_, rfl, strContains_suffix "Unknown command: " req.command⟩
    unfold handle_slack_command
    rw [if_neg (by simp [hauth]), if_neg h1, if_neg h2, if_neg h3]

/-- Witness for C8: an authenticated request with command `/foo` gets the
unknown-command outcome. -/
theorem dispatch_total_witness :
    handle_slack_command "s" ⟨"j", fun _ => (none, ""), Except.ok "", Except.ok ()⟩ "m"
        ⟨"t", expectedSignature "s" "t" "b", "b", "/foo", "", "", ""⟩ =
      CommandOutcome.unknownCommand "/foo" :=
  ((dispatch_total "s" "m" _ _ (by simp [compare_digest])).2.2.2 (by decide)).1
